import Mathlib

/-!
Verification of the document-verification workflow in `app.py`:
field normalisation, fuzzy text matching, phone matching, the field
comparator and the verification decision engine, plus the error-handling
contract of the extraction pipeline.

Python strings are embedded as `String` (with the character list `data`
carrying all computation); Python dicts of optional strings become
structures of `Option String`; exceptions of the extraction pipeline are
embedded as `Except`/`Option` oracle parameters.
-/

/-- Model of Python `str.lower()` applied character-wise (ASCII case fold,
as in `Char.toLower`). -/
def pyLower (l : List Char) : List Char := l.map Char.toLower

/-- Model of Python `str.strip()`: drop whitespace from both ends. -/
def pyStrip (l : List Char) : List Char :=
  ((l.dropWhile Char.isWhitespace).reverse.dropWhile Char.isWhitespace).reverse

/-- The space character, written via its code point. -/
def spaceChar : Char := Char.ofNat 32

/-- Longest-common-subsequence length with an explicit structural fuel so
that the kernel can evaluate it; `lcs` below supplies sufficient fuel. -/
def lcsAux : Nat → List Char → List Char → Nat
  | 0, _, _ => 0
  | _ + 1, [], _ => 0
  | _ + 1, _ :: _, [] => 0
  | fuel + 1, a :: l1, b :: l2 =>
    if a = b then lcsAux fuel l1 l2 + 1
    else max (lcsAux fuel (a :: l1) l2) (lcsAux fuel l1 (b :: l2))

/-- Modelled from the spec: the "direct character-alignment" count used by
the similarity score of the fuzzy matching library, whose code is not part
of this repository — the number of aligned (matched) characters between the
two strings, i.e. their longest common subsequence length. -/
def lcs (l1 l2 : List Char) : Nat := lcsAux (l1.length + l2.length) l1 l2

/-- Modelled from the spec: the direct character-alignment similarity score
of the fuzzy matching library (not part of this repository), on a 0-100
scale: `round (100 * 2 * matched / (len1 + len2))` (round half up), and 0
when either string is empty. -/
def fuzzScore (l1 l2 : List Char) : Nat :=
  if l1.isEmpty || l2.isEmpty then 0
  else (400 * lcs l1 l2 + (l1.length + l2.length)) / (2 * (l1.length + l2.length))

/-- Tokeniser: split on the space character, dropping empty pieces.
The accumulator holds the current token reversed. -/
def splitTokensAux : List Char → List Char → List (List Char)
  | [], acc => if acc.isEmpty then [] else [acc.reverse]
  | c :: cs, acc =>
    if c = spaceChar then
      if acc.isEmpty then splitTokensAux cs []
      else acc.reverse :: splitTokensAux cs []
    else splitTokensAux cs (c :: acc)

/-- Space-separated tokens of a string. -/
def splitTokens (l : List Char) : List (List Char) := splitTokensAux l []

/-- Join tokens with a single space between consecutive tokens. -/
def joinTokens : List (List Char) → List Char
  | [] => []
  | [t] => t
  | t :: t2 :: ts => t ++ spaceChar :: joinTokens (t2 :: ts)

/-- Lexicographic comparison of tokens by character code point, as Python
sorts strings. -/
def tokLe : List Char → List Char → Bool
  | [], _ => true
  | _ :: _, [] => false
  | a :: as, b :: bs => if a < b then true else if b < a then false else tokLe as bs

/-- Modelled from the spec: the token-order-insensitive preprocessing of the
fuzzy matching library (not part of this repository) — split into tokens,
sort them, join with single spaces. -/
def processAndSort (l : List Char) : List Char :=
  joinTokens (List.insertionSort (fun a b => tokLe a b = true) (splitTokens l))

/-- Modelled from the spec: the token-order-insensitive similarity score of
the fuzzy matching library (not part of this repository) — the alignment
score of the token-sorted forms. -/
def tokenSortScore (l1 l2 : List Char) : Nat :=
  fuzzScore (processAndSort l1) (processAndSort l2)

/-- The combined similarity used by `compare_with_fuzzy_match`: the maximum
of the direct score and the token-sorted score. -/
def fuzzSimilarity (l1 l2 : List Char) : Nat :=
  max (fuzzScore l1 l2) (tokenSortScore l1 l2)

/-- Embedding of `compare_with_fuzzy_match` (app.py lines 188-204): empty
input short-circuits to no match; otherwise both inputs are lower-cased and
stripped and the match holds when the combined similarity reaches the
threshold. The source gives `threshold` the default value 80; callers here
pass it explicitly. -/
def compare_with_fuzzy_match (str1 str2 : String) (threshold : Nat) : Bool :=
  if str1.data.isEmpty || str2.data.isEmpty then false
  else
    decide (threshold ≤
      fuzzSimilarity (pyStrip (pyLower str1.data)) (pyStrip (pyLower str2.data)))

/-- Keep only the last 10 characters when the list has at least 10, as
`phone[-10:] if len(phone) >= 10 else phone`. -/
def trimTo10 (l : List Char) : List Char :=
  if 10 ≤ l.length then l.drop (l.length - 10) else l

/-- Embedding of `compare_phone_numbers` (app.py lines 206-223): false on an
empty raw input, strip non-digits, false when either digit string is empty,
then compare the last-10-trimmed digit strings for equality. -/
def compare_phone_numbers (phone1 phone2 : String) : Bool :=
  if phone1.data.isEmpty || phone2.data.isEmpty then false
  else
    let d1 := phone1.data.filter Char.isDigit
    let d2 := phone2.data.filter Char.isDigit
    if d1.isEmpty || d2.isEmpty then false
    else decide (trimTo10 d1 = trimTo10 d2)

/-- The structured fields extracted from one document: the dict with keys
`name`, `phone`, `address`, each an optional string. -/
structure ExtractedFields where
  name : Option String
  phone : Option String
  address : Option String
deriving DecidableEq, Repr

/-- Python truthiness of an optional string: present and non-empty. -/
def truthy : Option String → Bool
  | none => false
  | some s => !s.data.isEmpty

/-- The tuple returned by `compare_extracted_info`. -/
structure VerificationResult where
  is_verified : Bool
  matched_fields : List String
  mismatched_fields : List String
  match_details : List (String × String)
deriving DecidableEq, Repr

/-- One field contribution to the matches, mismatches and details lists:
nothing when the field is not present (truthy) in both documents, otherwise
the field name goes to exactly one of the two lists with its rationale. -/
def fieldOutcome (fname : String) (present matched : Bool) (okMsg badMsg : String) :
    List String × List String × List (String × String) :=
  if present then
    if matched then ([fname], [], [(fname, okMsg)])
    else ([], [fname], [(fname, badMsg)])
  else ([], [], [])

/-- Embedding of `compare_extracted_info` (app.py lines 225-261): the three
fields are examined in the order name, phone, address; a field is compared
only when truthy in both inputs; name and address use the fuzzy matcher at
threshold 80, phone uses the phone matcher; the verdict is
`len(matches) >= 2`. -/
def compare_extracted_info (id_info bank_info : ExtractedFields) : VerificationResult :=
  let nameRes := fieldOutcome "name" (truthy id_info.name && truthy bank_info.name)
    (compare_with_fuzzy_match (id_info.name.getD "") (bank_info.name.getD "") 80)
    "Matched with high confidence" "Names differ significantly"
  let phoneRes := fieldOutcome "phone" (truthy id_info.phone && truthy bank_info.phone)
    (compare_phone_numbers (id_info.phone.getD "") (bank_info.phone.getD ""))
    "Phone numbers match" "Phone numbers differ"
  let addrRes := fieldOutcome "address" (truthy id_info.address && truthy bank_info.address)
    (compare_with_fuzzy_match (id_info.address.getD "") (bank_info.address.getD "") 80)
    "Addresses match with high similarity" "Addresses differ significantly"
  let allMatches := nameRes.1 ++ phoneRes.1 ++ addrRes.1
  ⟨decide (2 ≤ allMatches.length), allMatches,
    nameRes.2.1 ++ phoneRes.2.1 ++ addrRes.2.1,
    nameRes.2.2 ++ phoneRes.2.2 ++ addrRes.2.2⟩

/-- The parsed LLM response: the values found under the keys `name`,
`phone` and `address` of the decoded JSON object. -/
structure LLMParsed where
  name : Option String
  phone : Option String
  address : Option String
deriving DecidableEq, Repr

/-- The degraded all-null extraction result. -/
def allNullFields : ExtractedFields := ⟨none, none, none⟩

/-- Embedding of `extract_entities_using_groq` (app.py lines 148-174). The
LLM call is an oracle parameter that either fails (raises) or yields the
response content; JSON decoding of the content is an oracle that yields
`none` when parsing raises (malformed response). The `try`/`except`
returns the all-null dict on any failure. -/
def extract_entities_using_groq (llmResponse : Except String String)
    (parseJson : String → Option LLMParsed) : ExtractedFields :=
  match llmResponse with
  | .error _ => allNullFields
  | .ok content =>
    match parseJson content with
    | none => allNullFields
    | some info => ⟨info.name, info.phone, info.address⟩

/-- Embedding of `process_document` (app.py lines 176-186). The OCR call is
an oracle parameter that either fails (raises) or yields the document text;
the `try`/`except` returns the all-null dict when OCR fails, and the inner
extraction handles LLM and parse failures. The return type is total, so no
exception reaches the caller. -/
def process_document (ocrResult : Except String String)
    (llm : String → Except String String)
    (parseJson : String → Option LLMParsed) : ExtractedFields :=
  match ocrResult with
  | .error _ => allNullFields
  | .ok text => extract_entities_using_groq (llm text) parseJson

/-- The list of fields (in source order) that are truthy in both inputs:
the reference set for the comparator invariant. -/
def presentInBoth (a b : ExtractedFields) : List String :=
  (if truthy a.name && truthy b.name then ["name"] else []) ++
    (if truthy a.phone && truthy b.phone then ["phone"] else []) ++
      (if truthy a.address && truthy b.address then ["address"] else [])

/-! ### Lemmas about the alignment count -/

theorem lcsAux_comm (fuel : Nat) : ∀ l1 l2, lcsAux fuel l1 l2 = lcsAux fuel l2 l1 := by
  induction fuel with
  | zero => intro l1 l2; rfl
  | succ f ih =>
    intro l1 l2
    cases l1 with
    | nil => cases l2 <;> rfl
    | cons a as =>
      cases l2 with
      | nil => rfl
      | cons b bs =>
        by_cases hab : a = b
        · subst hab
          simp only [lcsAux, eq_self_iff_true, if_true]
          rw [ih]
        · have hba : ¬ b = a := fun h => hab h.symm
          simp only [lcsAux, if_neg hab, if_neg hba]
          rw [ih (a :: as) bs, ih as (b :: bs), Nat.max_comm]

theorem lcsAux_self (l : List Char) : ∀ fuel, l.length ≤ fuel → lcsAux fuel l l = l.length := by
  induction l with
  | nil => intro fuel _; cases fuel <;> rfl
  | cons a as ih =>
    intro fuel hf
    cases fuel with
    | zero => simp at hf
    | succ f =>
      simp only [lcsAux, if_pos rfl]
      rw [ih f (by simpa using hf)]
      simp

theorem lcsAux_eq_zero_of_disjoint (fuel : Nat) :
    ∀ l1 l2, (∀ c ∈ l1, c ∉ l2) → lcsAux fuel l1 l2 = 0 := by
  induction fuel with
  | zero => intro l1 l2 _; rfl
  | succ f ih =>
    intro l1 l2 h
    cases l1 with
    | nil => cases l2 <;> rfl
    | cons a as =>
      cases l2 with
      | nil => rfl
      | cons b bs =>
        have hab : ¬ a = b := fun he => h a (by simp) (by simp [he])
        simp only [lcsAux, if_neg hab]
        rw [ih (a :: as) bs fun c hc hcb => h c hc (List.mem_cons_of_mem _ hcb),
          ih as (b :: bs) fun c hc => h c (List.mem_cons_of_mem _ hc)]
        simp

theorem lcs_comm (l1 l2 : List Char) : lcs l1 l2 = lcs l2 l1 := by
  unfold lcs
  rw [Nat.add_comm, lcsAux_comm]

theorem lcs_self (l : List Char) : lcs l l = l.length :=
  lcsAux_self l _ (Nat.le_add_left _ _)

theorem lcs_eq_zero_of_disjoint {l1 l2 : List Char} (h : ∀ c ∈ l1, c ∉ l2) :
    lcs l1 l2 = 0 :=
  lcsAux_eq_zero_of_disjoint _ l1 l2 h

/-! ### Lemmas about the similarity scores -/

theorem fuzzScore_self {l : List Char} (h : l ≠ []) : fuzzScore l l = 100 := by
  unfold fuzzScore
  have he : l.isEmpty = false := by simpa [List.isEmpty_iff] using h
  rw [he]
  simp only [Bool.or_self, Bool.false_eq_true, if_false, lcs_self]
  have hn : 0 < l.length := List.length_pos.mpr h
  have harith : 400 * l.length + (l.length + l.length) =
      (l.length + l.length) + 2 * (l.length + l.length) * 100 := by ring
  rw [harith, Nat.add_mul_div_left _ _ (by omega),
    Nat.div_eq_of_lt (by omega)]

theorem fuzzScore_comm (l1 l2 : List Char) : fuzzScore l1 l2 = fuzzScore l2 l1 := by
  unfold fuzzScore
  rw [Bool.or_comm, lcs_comm, Nat.add_comm l1.length]

theorem fuzzScore_eq_zero_of_disjoint {l1 l2 : List Char}
    (h : ∀ c ∈ l1, c ∉ l2) : fuzzScore l1 l2 = 0 := by
  unfold fuzzScore
  by_cases hguard : (l1.isEmpty || l2.isEmpty) = true
  · rw [if_pos hguard]
  · rw [if_neg hguard, lcs_eq_zero_of_disjoint h]
    have h1 : l1 ≠ [] := by
      intro he; exact hguard (by simp [he])
    have hn : 0 < l1.length := List.length_pos.mpr h1
    rw [Nat.mul_zero, Nat.zero_add]
    exact Nat.div_eq_of_lt (by omega)

/-! ### Lemmas about tokenisation and the token-sorted form -/

theorem mem_of_mem_splitTokensAux (c : Char) :
    ∀ l acc t, t ∈ splitTokensAux l acc → c ∈ t → c ∈ l ∨ c ∈ acc := by
  intro l
  induction l with
  | nil =>
    intro acc t ht hc
    unfold splitTokensAux at ht
    by_cases hacc : acc.isEmpty
    · rw [if_pos hacc] at ht; simp at ht
    · rw [if_neg hacc] at ht
      simp only [List.mem_singleton] at ht
      subst ht
      exact Or.inr (List.mem_reverse.mp hc)
  | cons d ds ih =>
    intro acc t ht hc
    unfold splitTokensAux at ht
    by_cases hd : d = spaceChar
    · rw [if_pos hd] at ht
      by_cases hacc : acc.isEmpty
      · rw [if_pos hacc] at ht
        rcases ih [] t ht hc with h | h
        · exact Or.inl (List.mem_cons_of_mem _ h)
        · simp at h
      · rw [if_neg hacc] at ht
        rcases List.mem_cons.mp ht with he | hmem
        · subst he
          exact Or.inr (List.mem_reverse.mp hc)
        · rcases ih [] t hmem hc with h | h
          · exact Or.inl (List.mem_cons_of_mem _ h)
          · simp at h
    · rw [if_neg hd] at ht
      rcases ih (d :: acc) t ht hc with h | h
      · exact Or.inl (List.mem_cons_of_mem _ h)
      · rcases List.mem_cons.mp h with he | hmem
        · subst he; exact Or.inl (List.mem_cons_self _ _)
        · exact Or.inr hmem

theorem mem_of_mem_splitTokens {c : Char} {l : List Char} {t : List Char}
    (ht : t ∈ splitTokens l) (hc : c ∈ t) : c ∈ l := by
  rcases mem_of_mem_splitTokensAux c l [] t ht hc with h | h
  · exact h
  · simp at h

theorem splitTokensAux_length_le (l : List Char) (hl : spaceChar ∉ l) :
    ∀ acc, (splitTokensAux l acc).length ≤ 1 := by
  induction l with
  | nil =>
    intro acc
    unfold splitTokensAux
    by_cases hacc : acc.isEmpty
    · rw [if_pos hacc]; simp
    · rw [if_neg hacc]; simp
  | cons d ds ih =>
    intro acc
    have hd : ¬ d = spaceChar := fun he => hl (by simp [he])
    unfold splitTokensAux
    rw [if_neg hd]
    exact ih (fun hm => hl (List.mem_cons_of_mem _ hm)) (d :: acc)

theorem mem_joinTokens (c : Char) :
    ∀ ts, c ∈ joinTokens ts → (∃ t ∈ ts, c ∈ t) ∨ (c = spaceChar ∧ 2 ≤ ts.length) := by
  intro ts
  induction ts with
  | nil => intro hc; simp [joinTokens] at hc
  | cons t rest ih =>
    cases rest with
    | nil =>
      intro hc
      simp only [joinTokens] at hc
      exact Or.inl ⟨t, List.mem_cons_self _ _, hc⟩
    | cons t2 rest2 =>
      intro hc
      simp only [joinTokens] at hc
      rcases List.mem_append.mp hc with h | h
      · exact Or.inl ⟨t, List.mem_cons_self _ _, h⟩
      · rcases List.mem_cons.mp h with he | hmem
        · exact Or.inr ⟨he, by simp⟩
        · rcases ih hmem with ⟨u, hu, hcu⟩ | ⟨he, _⟩
          · exact Or.inl ⟨u, List.mem_cons_of_mem _ hu, hcu⟩
          · exact Or.inr ⟨he, by simp⟩

theorem mem_of_mem_processAndSort {c : Char} {l : List Char}
    (hc : c ∈ processAndSort l) : c ∈ l := by
  unfold processAndSort at hc
  rcases mem_joinTokens c _ hc with ⟨t, ht, hct⟩ | ⟨he, hlen⟩
  · exact mem_of_mem_splitTokens ((List.mem_insertionSort _).mp ht) hct
  · subst he
    by_contra hns
    have hle := splitTokensAux_length_le l hns []
    rw [List.length_insertionSort] at hlen
    exact absurd (Nat.le_trans hlen hle) (by omega)

/-! ### Symmetry of the matchers -/

theorem tokenSortScore_comm (l1 l2 : List Char) :
    tokenSortScore l1 l2 = tokenSortScore l2 l1 := by
  unfold tokenSortScore
  exact fuzzScore_comm _ _

theorem fuzzSimilarity_comm (l1 l2 : List Char) :
    fuzzSimilarity l1 l2 = fuzzSimilarity l2 l1 := by
  unfold fuzzSimilarity
  rw [fuzzScore_comm, tokenSortScore_comm]

theorem compare_with_fuzzy_match_symm (s1 s2 : String) (t : Nat) :
    compare_with_fuzzy_match s1 s2 t = compare_with_fuzzy_match s2 s1 t := by
  unfold compare_with_fuzzy_match
  rw [Bool.or_comm, fuzzSimilarity_comm]

theorem compare_phone_numbers_symm (p1 p2 : String) :
    compare_phone_numbers p1 p2 = compare_phone_numbers p2 p1 := by
  unfold compare_phone_numbers
  rw [Bool.or_comm]
  by_cases hg : (p2.data.isEmpty || p1.data.isEmpty) = true
  · rw [if_pos hg, if_pos hg]
  · rw [if_neg hg, if_neg hg]
    simp only
    rw [Bool.or_comm]
    by_cases hd : ((p2.data.filter Char.isDigit).isEmpty ||
        (p1.data.filter Char.isDigit).isEmpty) = true
    · rw [if_pos hd, if_pos hd]
    · rw [if_neg hd, if_neg hd]
      simp [eq_comm]

/-! ### The field comparator and the decision engine -/

theorem fieldOutcome_matched (n : String) (p m : Bool) (ok bad : String) :
    (fieldOutcome n p m ok bad).1 = if p && m then [n] else [] := by
  cases p <;> cases m <;> rfl

theorem fieldOutcome_mismatched (n : String) (p m : Bool) (ok bad : String) :
    (fieldOutcome n p m ok bad).2.1 = if p && !m then [n] else [] := by
  cases p <;> cases m <;> rfl

theorem union_mem_helper (p1 p2 p3 q1 q2 q3 : Bool) (f : String) :
    (f ∈ (if p1 && q1 then ["name"] else []) ++
        (if p2 && q2 then ["phone"] else []) ++ (if p3 && q3 then ["address"] else []) ∨
     f ∈ (if p1 && !q1 then ["name"] else []) ++
        (if p2 && !q2 then ["phone"] else []) ++ (if p3 && !q3 then ["address"] else [])) ↔
    f ∈ (if p1 then ["name"] else []) ++
      (if p2 then ["phone"] else []) ++ (if p3 then ["address"] else []) := by
  cases p1 <;> cases p2 <;> cases p3 <;> cases q1 <;> cases q2 <;> cases q3 <;>
    simp <;> tauto

theorem disjoint_mem_helper (p1 p2 p3 q1 q2 q3 : Bool) (f : String)
    (h1 : f ∈ (if p1 && q1 then ["name"] else []) ++
      (if p2 && q2 then ["phone"] else []) ++ (if p3 && q3 then ["address"] else []))
    (h2 : f ∈ (if p1 && !q1 then ["name"] else []) ++
      (if p2 && !q2 then ["phone"] else []) ++ (if p3 && !q3 then ["address"] else [])) :
    False := by
  cases p1 <;> cases p2 <;> cases p3 <;> cases q1 <;> cases q2 <;> cases q3 <;>
    simp_all

/-- Claim C2 is false exactly as stated: with the name equal to the empty string
in both inputs, the field is non-null in both documents yet appears in
neither the matched nor the mismatched set, because the code tests Python
truthiness (which also excludes empty strings), not only nullity. -/
theorem comparator_union_counterexample :
    (ExtractedFields.mk (some "") none none).name ≠ none ∧
    (compare_extracted_info ⟨some "", none, none⟩ ⟨some "", none, none⟩).matched_fields = [] ∧
    (compare_extracted_info ⟨some "", none, none⟩ ⟨some "", none, none⟩).mismatched_fields = [] := by
  refine ⟨by simp, by decide, by decide⟩

/-- Claim C2 (amended): the matched and mismatched sets of the Field Comparator
are disjoint, and their union is exactly the set of fields (among name,
phone, address) whose value is non-null and non-empty in both inputs; a
field missing or empty in either input appears in neither set. -/
theorem comparator_sets_partition :
    (∀ a b : ExtractedFields, ∀ f : String,
      f ∈ (compare_extracted_info a b).matched_fields →
        f ∉ (compare_extracted_info a b).mismatched_fields) ∧
    (∀ a b : ExtractedFields, ∀ f : String,
      (f ∈ (compare_extracted_info a b).matched_fields ∨
        f ∈ (compare_extracted_info a b).mismatched_fields) ↔
      f ∈ presentInBoth a b) := by
  constructor
  · intro a b f h1 h2
    simp only [compare_extracted_info, fieldOutcome_matched, fieldOutcome_mismatched] at h1 h2
    exact disjoint_mem_helper _ _ _ _ _ _ f h1 h2
  · intro a b f
    simp only [compare_extracted_info, fieldOutcome_matched, fieldOutcome_mismatched,
      presentInBoth]
    exact union_mem_helper _ _ _ _ _ _ f

/-- Witness for C2 (amended) at concrete inputs: with name and phone both
present and equal, "name" is matched, hence not mismatched, and "phone"
belongs to the union exactly as it is present in both inputs. -/
theorem comparator_sets_partition_witness :
    ("name" ∈ (compare_extracted_info ⟨some "ab", some "12", none⟩
        ⟨some "ab", some "12", none⟩).matched_fields) ∧
    ("name" ∉ (compare_extracted_info ⟨some "ab", some "12", none⟩
        ⟨some "ab", some "12", none⟩).mismatched_fields) ∧
    (("phone" ∈ (compare_extracted_info ⟨some "ab", some "12", none⟩
          ⟨some "ab", some "12", none⟩).matched_fields ∨
      "phone" ∈ (compare_extracted_info ⟨some "ab", some "12", none⟩
          ⟨some "ab", some "12", none⟩).mismatched_fields) ↔
      "phone" ∈ presentInBoth ⟨some "ab", some "12", none⟩ ⟨some "ab", some "12", none⟩) :=
  ⟨by decide,
    comparator_sets_partition.1 ⟨some "ab", some "12", none⟩ ⟨some "ab", some "12", none⟩
      "name" (by decide),
    comparator_sets_partition.2 ⟨some "ab", some "12", none⟩ ⟨some "ab", some "12", none⟩
      "phone"⟩

/-- Claim C1: the Verification Decision Engine applies the quorum rule: the
verdict is true exactly when at least two fields matched, regardless of how
many fields mismatched; in particular a matched-fields list of name and
phone verifies even though the address mismatched, and a matched-fields
list of name alone does not verify. -/
theorem quorum_rule :
    (∀ a b : ExtractedFields,
      (compare_extracted_info a b).is_verified = true ↔
        2 ≤ (compare_extracted_info a b).matched_fields.length) ∧
    (∀ a b : ExtractedFields,
      (compare_extracted_info a b).matched_fields = ["name", "phone"] →
        (compare_extracted_info a b).is_verified = true) ∧
    (∀ a b : ExtractedFields,
      (compare_extracted_info a b).matched_fields = ["name"] →
        (compare_extracted_info a b).is_verified = false) := by
  have hiff : ∀ a b : ExtractedFields,
      (compare_extracted_info a b).is_verified = true ↔
        2 ≤ (compare_extracted_info a b).matched_fields.length := by
    intro a b
    simp only [compare_extracted_info, decide_eq_true_eq]
  refine ⟨hiff, fun a b h => ?_, fun a b h => ?_⟩
  · exact (hiff a b).mpr (by rw [h]; decide)
  · have : ¬ 2 ≤ (compare_extracted_info a b).matched_fields.length := by
      rw [h]; decide
    exact Bool.eq_false_iff.mpr fun he => this ((hiff a b).mp he)

/-- Witness for C1: concrete inputs where name and phone match while the
address mismatches give the verdict true, and concrete inputs where only
the name matches give the verdict false. -/
theorem quorum_rule_witness :
    ((compare_extracted_info ⟨some "ab", some "12", some "xy"⟩
        ⟨some "ab", some "12", some "pq"⟩).matched_fields = ["name", "phone"] ∧
      (compare_extracted_info ⟨some "ab", some "12", some "xy"⟩
        ⟨some "ab", some "12", some "pq"⟩).mismatched_fields = ["address"] ∧
      (compare_extracted_info ⟨some "ab", some "12", some "xy"⟩
        ⟨some "ab", some "12", some "pq"⟩).is_verified = true) ∧
    ((compare_extracted_info ⟨some "ab", some "12", none⟩
        ⟨some "ab", some "34", none⟩).matched_fields = ["name"] ∧
      (compare_extracted_info ⟨some "ab", some "12", none⟩
        ⟨some "ab", some "34", none⟩).is_verified = false) :=
  ⟨⟨by decide, by decide,
      quorum_rule.2.1 ⟨some "ab", some "12", some "xy"⟩
        ⟨some "ab", some "12", some "pq"⟩ (by decide)⟩,
    ⟨by decide,
      quorum_rule.2.2 ⟨some "ab", some "12", none⟩
        ⟨some "ab", some "34", none⟩ (by decide)⟩⟩

/-- Claim C9: the Field Comparator is order-independent over the two documents:
swapping the two ExtractedFields leaves the verdict and the matched and
mismatched field lists unchanged. -/
theorem comparison_order_independent :
    ∀ a b : ExtractedFields,
      (compare_extracted_info a b).is_verified = (compare_extracted_info b a).is_verified ∧
      (compare_extracted_info a b).matched_fields =
        (compare_extracted_info b a).matched_fields ∧
      (compare_extracted_info a b).mismatched_fields =
        (compare_extracted_info b a).mismatched_fields := by
  have h : ∀ a b : ExtractedFields,
      compare_extracted_info a b = compare_extracted_info b a := by
    intro a b
    unfold compare_extracted_info
    rw [compare_with_fuzzy_match_symm (a.name.getD "") (b.name.getD "") 80,
      compare_phone_numbers_symm (a.phone.getD "") (b.phone.getD ""),
      compare_with_fuzzy_match_symm (a.address.getD "") (b.address.getD "") 80,
      Bool.and_comm (truthy a.name) (truthy b.name),
      Bool.and_comm (truthy a.phone) (truthy b.phone),
      Bool.and_comm (truthy a.address) (truthy b.address)]
  exact fun a b => ⟨by rw [h], by rw [h], by rw [h]⟩

/-- Claim C3: the Fuzzy Text Matcher lower-cases and strips both inputs, computes
the direct character-alignment score and the token-sorted score, and
returns a match exactly when the maximum of the two scores reaches the
threshold (80 by default at the call sites); an empty raw input on either
side yields no match. -/
theorem fuzzy_match_contract :
    (∀ s1 s2 : String, ∀ t : Nat, s1.data ≠ [] → s2.data ≠ [] →
      compare_with_fuzzy_match s1 s2 t =
        decide (t ≤
          max (fuzzScore (pyStrip (pyLower s1.data)) (pyStrip (pyLower s2.data)))
            (tokenSortScore (pyStrip (pyLower s1.data)) (pyStrip (pyLower s2.data))))) ∧
    (∀ s : String, ∀ t : Nat, compare_with_fuzzy_match "" s t = false) ∧
    (∀ s : String, ∀ t : Nat, compare_with_fuzzy_match s "" t = false) := by
  refine ⟨fun s1 s2 t h1 h2 => ?_, fun s t => ?_, fun s t => ?_⟩
  · have hie1 : s1.data.isEmpty = false := by simpa [List.isEmpty_iff] using h1
    have hie2 : s2.data.isEmpty = false := by simpa [List.isEmpty_iff] using h2
    simp [compare_with_fuzzy_match, fuzzSimilarity, hie1, hie2]
  · have : ("" : String).data.isEmpty = true := rfl
    simp [compare_with_fuzzy_match, this]
  · have : ("" : String).data.isEmpty = true := rfl
    simp [compare_with_fuzzy_match, this]

/-- Witness for C3 at two concrete non-empty inputs. -/
theorem fuzzy_match_contract_witness :
    ("ab" : String).data ≠ [] ∧ ("cd" : String).data ≠ [] ∧
    compare_with_fuzzy_match "ab" "cd" 80 =
      decide (80 ≤
        max (fuzzScore (pyStrip (pyLower ("ab" : String).data))
            (pyStrip (pyLower ("cd" : String).data)))
          (tokenSortScore (pyStrip (pyLower ("ab" : String).data))
            (pyStrip (pyLower ("cd" : String).data)))) :=
  ⟨by decide, by decide, fuzzy_match_contract.1 "ab" "cd" 80 (by decide) (by decide)⟩

/-- Claim C7: on a non-empty string that is already in normalized form, the Fuzzy
Text Matcher applied to the pair of that string with itself returns a match
at every threshold at most 100. -/
theorem identical_strings_match :
    ∀ s : String, ∀ t : Nat, s.data ≠ [] →
      pyStrip (pyLower s.data) = s.data → t ≤ 100 →
      compare_with_fuzzy_match s s t = true := by
  intro s t hne hnorm ht
  have hie : s.data.isEmpty = false := by simpa [List.isEmpty_iff] using hne
  simp only [compare_with_fuzzy_match, fuzzSimilarity, hie, Bool.or_self, Bool.false_eq_true,
    if_false, hnorm, decide_eq_true_eq]
  rw [fuzzScore_self hne]
  exact Nat.le_trans ht (Nat.le_max_left _ _)

/-- Witness for C7 at a concrete normalized input and threshold 100. -/
theorem identical_strings_match_witness :
    ("ab" : String).data ≠ [] ∧ pyStrip (pyLower ("ab" : String).data) = ("ab" : String).data ∧
    (100 : Nat) ≤ 100 ∧ compare_with_fuzzy_match "ab" "ab" 100 = true :=
  ⟨by decide, by decide, by decide,
    identical_strings_match "ab" 100 (by decide) (by decide) (by decide)⟩

/-- Claim C8 is false exactly as stated: the raw inputs "A" and "a" share no
characters at all, yet the matcher lower-cases them into identical strings
and returns a match at threshold 1. -/
theorem disjoint_strings_counterexample :
    (∀ c, c ∈ ("A" : String).data → c ∉ ("a" : String).data) ∧
    compare_with_fuzzy_match "A" "a" 1 = true :=
  ⟨by decide, by decide⟩

/-- Claim C8 (amended): when the normalized (lower-cased and stripped) forms of
the two inputs share no characters, the Fuzzy Text Matcher returns false at
every threshold at least 1; disjointness must be taken after normalization,
since lower-casing can identify raw-disjoint characters. -/
theorem disjoint_strings_no_match :
    ∀ s1 s2 : String, ∀ t : Nat, 1 ≤ t →
      (∀ c, c ∈ pyStrip (pyLower s1.data) → c ∉ pyStrip (pyLower s2.data)) →
      compare_with_fuzzy_match s1 s2 t = false := by
  intro s1 s2 t ht hdisj
  unfold compare_with_fuzzy_match
  by_cases hg : (s1.data.isEmpty || s2.data.isEmpty) = true
  · rw [if_pos hg]
  · rw [if_neg hg]
    have h1 : fuzzScore (pyStrip (pyLower s1.data)) (pyStrip (pyLower s2.data)) = 0 :=
      fuzzScore_eq_zero_of_disjoint hdisj
    have h2 : tokenSortScore (pyStrip (pyLower s1.data)) (pyStrip (pyLower s2.data)) = 0 := by
      unfold tokenSortScore
      refine fuzzScore_eq_zero_of_disjoint ?_
      intro c hc1 hc2
      exact hdisj c (mem_of_mem_processAndSort hc1) (mem_of_mem_processAndSort hc2)
    unfold fuzzSimilarity
    rw [h1, h2]
    simp only [Nat.max_self, decide_eq_false_iff_not]
    omega

/-- Witness for C8 (amended) at concrete inputs with disjoint normalized
forms. -/
theorem disjoint_strings_no_match_witness :
    (1 : Nat) ≤ 80 ∧
    (∀ c, c ∈ pyStrip (pyLower ("ab" : String).data) →
      c ∉ pyStrip (pyLower ("cd" : String).data)) ∧
    compare_with_fuzzy_match "ab" "cd" 80 = false :=
  ⟨by decide, by decide, disjoint_strings_no_match "ab" "cd" 80 (by decide) (by decide)⟩

/-- Claim C4: when both inputs contain at least 10 digit characters, the Phone
Matcher returns true exactly when their last 10 digits (after stripping all
non-digit characters) are equal, which makes it insensitive to a leading
country or trunk prefix; in particular "+919876543210" matches
"9876543210". -/
theorem phone_last10 :
    (∀ p1 p2 : String,
      10 ≤ (p1.data.filter Char.isDigit).length →
      10 ≤ (p2.data.filter Char.isDigit).length →
      (compare_phone_numbers p1 p2 = true ↔
        (p1.data.filter Char.isDigit).drop ((p1.data.filter Char.isDigit).length - 10) =
          (p2.data.filter Char.isDigit).drop ((p2.data.filter Char.isDigit).length - 10))) ∧
    compare_phone_numbers "+919876543210" "9876543210" = true := by
  constructor
  · intro p1 p2 h1 h2
    have hne1 : p1.data ≠ [] := by
      intro he; rw [he] at h1; simp at h1
    have hne2 : p2.data ≠ [] := by
      intro he; rw [he] at h2; simp at h2
    have hg1 : p1.data.isEmpty = false := by simpa [List.isEmpty_iff] using hne1
    have hg2 : p2.data.isEmpty = false := by simpa [List.isEmpty_iff] using hne2
    have hd1 : (p1.data.filter Char.isDigit).isEmpty = false := by
      have : p1.data.filter Char.isDigit ≠ [] := by
        intro he; rw [he] at h1; simp at h1
      simpa [List.isEmpty_iff] using this
    have hd2 : (p2.data.filter Char.isDigit).isEmpty = false := by
      have : p2.data.filter Char.isDigit ≠ [] := by
        intro he; rw [he] at h2; simp at h2
      simpa [List.isEmpty_iff] using this
    simp [compare_phone_numbers, trimTo10, hg1, hg2, hd1, hd2, h1, h2]
  · decide

/-- Witness for C4 at the concrete prefix-insensitive pair. -/
theorem phone_last10_witness :
    10 ≤ (("+919876543210" : String).data.filter Char.isDigit).length ∧
    10 ≤ (("9876543210" : String).data.filter Char.isDigit).length ∧
    (compare_phone_numbers "+919876543210" "9876543210" = true ↔
      (("+919876543210" : String).data.filter Char.isDigit).drop
          ((("+919876543210" : String).data.filter Char.isDigit).length - 10) =
        (("9876543210" : String).data.filter Char.isDigit).drop
          ((("9876543210" : String).data.filter Char.isDigit).length - 10)) :=
  ⟨by decide, by decide, phone_last10.1 "+919876543210" "9876543210" (by decide) (by decide)⟩

/-- Claim C5: the Phone Matcher returns false whenever either input has no digit
characters left after stripping non-digits; an empty raw input is a special
case, since its digit string is empty. -/
theorem phone_no_digits_false :
    ∀ p1 p2 : String,
      (p1.data.filter Char.isDigit = [] ∨ p2.data.filter Char.isDigit = []) →
      compare_phone_numbers p1 p2 = false := by
  intro p1 p2 h
  unfold compare_phone_numbers
  by_cases hg : (p1.data.isEmpty || p2.data.isEmpty) = true
  · rw [if_pos hg]
  · rw [if_neg hg]
    simp only
    have hd : ((p1.data.filter Char.isDigit).isEmpty ||
        (p2.data.filter Char.isDigit).isEmpty) = true := by
      rcases h with h | h <;> simp [h]
    rw [if_pos hd]

/-- Witness for C5 at a digit-free first input. -/
theorem phone_no_digits_false_witness :
    (("abc" : String).data.filter Char.isDigit = [] ∨
      ("123" : String).data.filter Char.isDigit = []) ∧
    compare_phone_numbers "abc" "123" = false :=
  ⟨by decide, phone_no_digits_false "abc" "123" (by decide)⟩

/-- Claim C10 is false exactly as stated on digit-free inputs: "a" and "b" have
equal (both empty) cleaned digit strings, each shorter than 10 digits, yet
the Phone Matcher returns false because of its empty-digit-string guard. -/
theorem short_phone_counterexample :
    ("a" : String).data.filter Char.isDigit = ("b" : String).data.filter Char.isDigit ∧
    (("a" : String).data.filter Char.isDigit).length < 10 ∧
    (("b" : String).data.filter Char.isDigit).length < 10 ∧
    compare_phone_numbers "a" "b" = false :=
  ⟨by decide, by decide, by decide, by decide⟩

/-- Claim C10 (amended): when both cleaned digit strings are non-empty and
shorter than 10 digits, the Phone Matcher compares the full cleaned digit
strings for exact equality (no truncation), so equal short numbers such as
"12345" and "1-2345" match; and a cleaned digit string shorter than 10
digits never matches one of length at least 10, even when it is a suffix of
the longer one. -/
theorem short_phone_exact :
    (∀ p1 p2 : String,
      p1.data.filter Char.isDigit ≠ [] → p2.data.filter Char.isDigit ≠ [] →
      (p1.data.filter Char.isDigit).length < 10 →
      (p2.data.filter Char.isDigit).length < 10 →
      (compare_phone_numbers p1 p2 = true ↔
        p1.data.filter Char.isDigit = p2.data.filter Char.isDigit)) ∧
    (∀ p1 p2 : String,
      (p1.data.filter Char.isDigit).length < 10 →
      10 ≤ (p2.data.filter Char.isDigit).length →
      compare_phone_numbers p1 p2 = false) := by
  constructor
  · intro p1 p2 hne1 hne2 h1 h2
    have hraw1 : p1.data ≠ [] := by
      intro he; exact hne1 (by rw [he]; rfl)
    have hraw2 : p2.data ≠ [] := by
      intro he; exact hne2 (by rw [he]; rfl)
    have hg1 : p1.data.isEmpty = false := by simpa [List.isEmpty_iff] using hraw1
    have hg2 : p2.data.isEmpty = false := by simpa [List.isEmpty_iff] using hraw2
    have hd1 : (p1.data.filter Char.isDigit).isEmpty = false := by
      simpa [List.isEmpty_iff] using hne1
    have hd2 : (p2.data.filter Char.isDigit).isEmpty = false := by
      simpa [List.isEmpty_iff] using hne2
    have hnle1 : ¬ 10 ≤ (p1.data.filter Char.isDigit).length := by omega
    have hnle2 : ¬ 10 ≤ (p2.data.filter Char.isDigit).length := by omega
    simp [compare_phone_numbers, trimTo10, hg1, hg2, hd1, hd2, hnle1, hnle2]
  · intro p1 p2 h1 h2
    by_cases he1 : p1.data.isEmpty = true
    · simp [compare_phone_numbers, he1]
    · by_cases he2 : p2.data.isEmpty = true
      · simp [compare_phone_numbers, he2]
      · by_cases hd1 : (p1.data.filter Char.isDigit).isEmpty = true
        · simp [compare_phone_numbers, he1, he2, hd1]
        · have hd2 : (p2.data.filter Char.isDigit).isEmpty = false := by
            have : p2.data.filter Char.isDigit ≠ [] := by
              intro hh; rw [hh] at h2; simp at h2
            simpa [List.isEmpty_iff] using this
          have hne : ¬ (trimTo10 (p1.data.filter Char.isDigit) =
              trimTo10 (p2.data.filter Char.isDigit)) := by
            unfold trimTo10
            rw [if_neg (by omega), if_pos h2]
            intro he
            have hlen := congrArg List.length he
            rw [List.length_drop] at hlen
            omega
          simp [compare_phone_numbers, he1, he2, hd1, hd2, hne]

/-- Witness for C10 (amended): equal short digit strings match, and a short
digit string that is a suffix of a 10-digit one does not match it. -/
theorem short_phone_exact_witness :
    (("12345" : String).data.filter Char.isDigit ≠ [] ∧
      ("1-2345" : String).data.filter Char.isDigit ≠ [] ∧
      (("12345" : String).data.filter Char.isDigit).length < 10 ∧
      (("1-2345" : String).data.filter Char.isDigit).length < 10 ∧
      (compare_phone_numbers "12345" "1-2345" = true ↔
        ("12345" : String).data.filter Char.isDigit =
          ("1-2345" : String).data.filter Char.isDigit)) ∧
    ((("543210" : String).data.filter Char.isDigit).length < 10 ∧
      10 ≤ (("9876543210" : String).data.filter Char.isDigit).length ∧
      compare_phone_numbers "543210" "9876543210" = false) :=
  ⟨⟨by decide, by decide, by decide, by decide,
      short_phone_exact.1 "12345" "1-2345" (by decide) (by decide) (by decide) (by decide)⟩,
    ⟨by decide, by decide,
      short_phone_exact.2 "543210" "9876543210" (by decide) (by decide)⟩⟩

/-- Claim C6: if the OCR call fails, the LLM call fails, or parsing of the LLM
response fails, document processing returns the all-null ExtractedFields;
the embedding is a total function into ExtractedFields, so no exception
reaches the caller. -/
theorem extraction_failure_all_null :
    (∀ e : String, ∀ llm : String → Except String String,
      ∀ parseJson : String → Option LLMParsed,
      process_document (Except.error e) llm parseJson = allNullFields) ∧
    (∀ text e : String, ∀ llm : String → Except String String,
      ∀ parseJson : String → Option LLMParsed, llm text = Except.error e →
      process_document (Except.ok text) llm parseJson = allNullFields) ∧
    (∀ text content : String, ∀ llm : String → Except String String,
      ∀ parseJson : String → Option LLMParsed, llm text = Except.ok content →
      parseJson content = none →
      process_document (Except.ok text) llm parseJson = allNullFields) := by
  refine ⟨fun e llm pj => rfl, fun text e llm pj h => ?_, fun text content llm pj h hp => ?_⟩
  · simp [process_document, extract_entities_using_groq, h]
  · simp [process_document, extract_entities_using_groq, h, hp]

/-- Witness for C6: concrete oracles where OCR succeeds, the LLM call
succeeds and the response fails to parse yield the all-null fields. -/
theorem extraction_failure_all_null_witness :
    ((fun _ : String => (Except.ok "bad" : Except String String)) "text" =
        Except.ok "bad") ∧
    ((fun _ : String => (none : Option LLMParsed)) "bad" = none) ∧
    process_document (Except.ok "text") (fun _ => Except.ok "bad")
      (fun _ => none) = allNullFields :=
  ⟨rfl, rfl,
    extraction_failure_all_null.2.2 "text" "bad" (fun _ => Except.ok "bad")
      (fun _ => none) rfl rfl⟩
